import Mathlib

/-!
Verification of `generate-ssh-key` (src/index.js) against its
natural-language specification.

The program is a sequential CLI orchestrator.  We shallowly embed:

* `convertToSshUrl` (src/index.js:188-194): the one piece of pure logic,
  a JavaScript regex match `^https:\/\/(.*?)\/(.*?)\/(.*?)(?:\.git)?$`
  with lazy groups, embedded as a backtracking matcher on `List Char`
  with the same priority order as the JS engine.
* The effectful steps (`ensureSSHDirectory`, `generateKey`,
  `setupGitConfig`, `isGitHubCliAvailable`, the remote-rewrite block of
  `main`, and `main` itself) as deterministic state transformers over an
  explicit environment describing the outcomes of external processes,
  the filesystem, prompt answers, and the platform.
-/

namespace GenSshKey

/-!  ## The URL rewriter (src/index.js:188-194)

`convertToSshUrl` applies the JS regex
`^https:\/\/(.*?)\/(.*?)\/(.*?)(?:\.git)?$`.
JS `.` (without the `s` flag) matches every character except the four
line terminators.  The three groups are lazy (`*?`), so each tries the
shortest prefix first and grows only when the rest of the pattern fails;
the optional `(?:\.git)?` is greedy, i.e. prefers to consume `.git`.
We implement exactly that backtracking order. -/

/-- JS `.` without the `s` flag: any char except a line terminator. -/
def dotChar (c : Char) : Bool :=
  !(c = '\n' || c = '\r' || c = ' ' || c = ' ')

/-- Matches `(.*?)(?:\.git)?$` against the input, returning group 3.
Lazy: the empty group is tried first at every position; the optional
`(?:\.git)?` prefers consuming `.git` before matching empty. -/
def match3 : List Char → Option (List Char)
  | [] => some []
  | c :: cs =>
    if c :: cs = ['.', 'g', 'i', 't'] then some []
    else if dotChar c then (match3 cs).map (c :: ·) else none

/-- Matches `(.*?)\/(.*?)(?:\.git)?$`, returning groups 2 and 3.
Group 2 is lazy: it commits to the first `/` at which the rest of the
pattern succeeds, and otherwise absorbs the character (including `/`,
which JS `.` matches) and retries. -/
def match2 : List Char → Option (List Char × List Char)
  | [] => none
  | c :: cs =>
    if c = '/' then
      match match3 cs with
      | some g3 => some ([], g3)
      | none =>
        if dotChar c then (match2 cs).map (fun p => (c :: p.1, p.2)) else none
    else
      if dotChar c then (match2 cs).map (fun p => (c :: p.1, p.2)) else none

/-- Matches `(.*?)\/(.*?)\/(.*?)(?:\.git)?$`, returning all three groups,
with the same lazy priority as `match2`. -/
def match1 : List Char → Option (List Char × List Char × List Char)
  | [] => none
  | c :: cs =>
    if c = '/' then
      match match2 cs with
      | some p => some ([], p.1, p.2)
      | none =>
        if dotChar c then (match1 cs).map (fun t => (c :: t.1, t.2)) else none
    else
      if dotChar c then (match1 cs).map (fun t => (c :: t.1, t.2)) else none

/-- The literal anchored prefix `^https:\/\/`. -/
def httpsMarker : List Char := ['h', 't', 't', 'p', 's', ':', '/', '/']

/-- The full regex match of src/index.js:189-190 on a character list:
anchored prefix `https://`, then the three groups. -/
def matchUrl (cs : List Char) : Option (List Char × List Char × List Char) :=
  if cs.take 8 = httpsMarker then match1 (cs.drop 8) else none

/-- `convertToSshUrl` (src/index.js:188-194): on a regex match, build
`git@<domain>:<username>/<repo>.git`; otherwise return `null`. -/
def convertToSshUrl (httpsUrl : String) : Option String :=
  match matchUrl httpsUrl.toList with
  | none => none
  | some (domain, username, repo) =>
    some ("git@" ++ domain.asString ++ ":" ++ username.asString ++ "/" ++
          repo.asString ++ ".git")

/-! ## Effectful model

The remaining functions shell out to external tools and touch the
filesystem.  We model the world by an explicit environment recording the
outcome of each external interaction (success flags, error codes and
messages, prompt answers) and a filesystem as a map from paths to file
contents.  Each embedded function returns its effects explicitly: the
new filesystem, the list of shell command strings handed to
`execPromise` (in order), and the error it throws, if any. -/

inductive Platform where
  | windows
  | darwin
  | linux
deriving DecidableEq

/-- `sshDir` (src/index.js:12), parameterized by the home directory. -/
def sshDir (home : String) : String := home ++ "/.ssh"

/-- `keyPath` (src/index.js:13). -/
def keyPath (home : String) : String := sshDir home ++ "/id_ed25519"

/-- `pubKeyPath` (src/index.js:14). -/
def pubKeyPath (home : String) : String := keyPath home ++ ".pub"

/-- A filesystem: path → contents (`none` = file absent). -/
structure FS where
  files : String → Option String

/-! ### `ensureSSHDirectory` (src/index.js:74-99) -/

/-- Environment for `ensureSSHDirectory`: outcomes of `fs.mkdir`,
`fs.chmod` (non-Windows) and the `icacls` shell command (Windows). -/
structure DirEnv where
  platform : Platform
  mkdirOk : Bool
  mkdirErrCode : String
  mkdirErrMsg : String
  chmodOk : Bool
  chmodErrCode : String
  chmodErrMsg : String
  icaclsOk : Bool

structure DirResult where
  err : Option String
  warned : Bool
deriving DecidableEq

/-- `ensureSSHDirectory`.  The Windows `icacls` call sits in its own
try/catch (lines 82-92) whose catch only prints a warning; the
non-Windows `fs.chmod` call (line 80) has no inner handler, so a chmod
failure falls through to the outer catch (lines 94-98), which rethrows a
wrapped error whenever the error code is not `EEXIST`. -/
def ensureSSHDirectory (env : DirEnv) : DirResult :=
  if !env.mkdirOk then
    if env.mkdirErrCode ≠ "EEXIST" then
      { err := some ("Failed to create .ssh directory: " ++ env.mkdirErrMsg),
        warned := false }
    else { err := none, warned := false }
  else if env.platform ≠ Platform.windows then
    if env.chmodOk then { err := none, warned := false }
    else if env.chmodErrCode ≠ "EEXIST" then
      { err := some ("Failed to create .ssh directory: " ++ env.chmodErrMsg),
        warned := false }
    else { err := none, warned := false }
  else
    if env.icaclsOk then { err := none, warned := false }
    else { err := none, warned := true }

/-! ### `generateKey` (src/index.js:102-146) -/

/-- Environment for `generateKey`: outcome of the `ssh-keygen` command
(and the key material it writes on success), the message carried by a
failed public-key read, and the outcome of the clipboard command. -/
structure GenEnv where
  platform : Platform
  home : String
  sshKeygenOk : Bool
  sshKeygenPriv : String
  sshKeygenPub : String
  sshKeygenErr : String
  readPubErr : String
  clipOk : Bool

/-- The exact command string of src/index.js:116. -/
def sshKeygenCmd (home : String) : String :=
  "ssh-keygen -t ed25519 -f \"" ++ keyPath home ++ "\" -N \"\""

/-- The platform-selected clipboard command (src/index.js:128-132). -/
def clipCmd (p : Platform) (home : String) : String :=
  match p with
  | .windows => "type \"" ++ pubKeyPath home ++ "\" | clip"
  | .darwin => "cat \"" ++ pubKeyPath home ++ "\" | pbcopy"
  | .linux => "cat \"" ++ pubKeyPath home ++ "\" | xclip -selection clipboard"

structure GenResult where
  fs : FS
  trace : List String
  err : Option String
  clipNote : Bool

/-- A successful `ssh-keygen` run writes the private and public key files. -/
def keygenWrite (env : GenEnv) (fs : FS) : FS :=
  ⟨fun p =>
    if p = keyPath env.home then some env.sshKeygenPriv
    else if p = pubKeyPath env.home then some env.sshKeygenPub
    else fs.files p⟩

/-- Lines 121-142: read and display the public key, then attempt the
clipboard copy in its own try/catch (failure only prints a note).  A
failed read escapes to the outer catch of `generateKey` (line 143),
which wraps it. -/
def readAndClip (env : GenEnv) (fs : FS) (tr : List String) : GenResult :=
  match fs.files (pubKeyPath env.home) with
  | none =>
    { fs := fs, trace := tr,
      err := some ("Failed to generate SSH key: " ++ env.readPubErr),
      clipNote := false }
  | some _ =>
    { fs := fs, trace := tr ++ [clipCmd env.platform env.home],
      err := none, clipNote := !env.clipOk }

/-- `generateKey`: if the private key exists (`fs.access` succeeds, lines
105-110) nothing is generated; otherwise `ssh-keygen` is invoked (line
116-117), and a non-zero exit escapes to the outer catch (line 143)
which wraps the message as `Failed to generate SSH key: …`. -/
def generateKey (env : GenEnv) (fs : FS) : GenResult :=
  if (fs.files (keyPath env.home)).isSome then
    readAndClip env fs []
  else if env.sshKeygenOk then
    readAndClip env (keygenWrite env fs) [sshKeygenCmd env.home]
  else
    { fs := fs, trace := [sshKeygenCmd env.home],
      err := some ("Failed to generate SSH key: " ++ env.sshKeygenErr),
      clipNote := false }

/-! ### `isGitHubCliAvailable` (src/index.js:196-205) -/

/-- Environment for the GitHub CLI interactions. -/
structure GhEnv where
  ghInstalled : Bool
  ghAuthOk : Bool
  ghUser : Option String
  uploadAnswer : Bool
  uploadOk : Bool

/-- `which("gh")` (src/index.js:198) as a fallible step: resolution
failure rejects. -/
def whichGh (env : GhEnv) : Except String Unit :=
  if env.ghInstalled then .ok () else .error "not found"

/-- `gh auth status` (src/index.js:200) as a fallible step: a non-zero
exit rejects. -/
def ghAuthStatus (env : GhEnv) : Except String String :=
  if env.ghAuthOk then .ok "" else .error "auth failed"

/-- `isGitHubCliAvailable` (src/index.js:196-205): run both probes
inside a try/catch; any rejection is caught and yields `false`. -/
def isGitHubCliAvailable (env : GhEnv) : Bool :=
  match (do
    _ ← whichGh env
    _ ← ghAuthStatus env
    pure true : Except String Bool) with
  | .ok b => b
  | .error _ => false

/-! ### `setupGitConfig` (src/index.js:243-287) -/

/-- The global Git configuration: what `git config --global --get`
prints for `user.name` / `user.email` (`none` = the command exits
non-zero, i.e. `getGitConfig` returned `null`). -/
structure GitConfig where
  name : Option String
  email : Option String
deriving DecidableEq

/-- JS truthiness of a `getGitConfig` result: `null` and the empty
string are both falsy. -/
def truthy : Option String → Bool
  | none => false
  | some s => !(s = "")

/-- Environment for `setupGitConfig`: the interactive answers the user
gives when prompted. -/
structure CfgEnv where
  nameAnswer : String
  emailAnswer : String

/-- Result of `setupGitConfig`: the prompts shown (in order), the
`git config --global <key> "<value>"` writes performed (in order), and
the configuration afterwards. -/
structure CfgResult where
  prompts : List String
  writes : List (String × String)
  cfg : GitConfig
deriving DecidableEq

/-- `setupGitConfig` (src/index.js:255-287): if either value is falsy,
prompt only for the falsy fields (`when: !name` / `when: !email`), then
write a field back only when its answer is present and truthy
(`if (answers.name)` / `if (answers.email)`). -/
def setupGitConfig (env : CfgEnv) (cfg : GitConfig) : CfgResult :=
  if !truthy cfg.name || !truthy cfg.email then
    let nameAns : Option String :=
      if !truthy cfg.name then some env.nameAnswer else none
    let emailAns : Option String :=
      if !truthy cfg.email then some env.emailAnswer else none
    { prompts := (if !truthy cfg.name then ["name"] else []) ++
        (if !truthy cfg.email then ["email"] else []),
      writes := (if truthy nameAns then [("user.name", env.nameAnswer)] else []) ++
        (if truthy emailAns then [("user.email", env.emailAnswer)] else []),
      cfg := { name := if truthy nameAns then some env.nameAnswer else cfg.name,
               email := if truthy emailAns then some env.emailAnswer else cfg.email } }
  else
    { prompts := [], writes := [], cfg := cfg }

/-! ### The remote-URL block of `main` (src/index.js:369-412) -/

/-- Environment for the remote-rewrite block: whether the working
directory is inside a Git work tree, what `git config --get
remote.origin.url` returns (`null` on failure), the confirmation-prompt
answer, and the outcome of `git remote set-url`. -/
structure RemoteEnv where
  isRepo : Bool
  remoteUrl : Option String
  convertAnswer : Bool
  setUrlOk : Bool
  setUrlErr : String

/-- JS `url.startsWith("git@")` (src/index.js:371): the first four
characters are `git@`. -/
def startsWithGitAt (url : String) : Bool :=
  url.toList.take 4 = ['g', 'i', 't', '@']

/-- The message class printed by the remote block. -/
inductive RemoteNote where
  | converted
  | unrecognized
  | alreadySsh
  | notARepo
deriving DecidableEq

/-- Result of the remote block: the origin URL afterwards, whether
`git remote set-url` ran, the note printed (if any; a declined prompt
prints nothing), and the error thrown (a failing `set-url` escapes to
`main`'s catch). -/
structure RemoteResult where
  remoteUrl : Option String
  mutated : Bool
  note : Option RemoteNote
  err : Option String
deriving DecidableEq

/-- Lines 369-412 of `main`: inside a repo, read the origin URL; the
guard at line 371 is `currentUrl && !currentUrl.startsWith("git@")`, so
a falsy URL — `null` or the JS-falsy empty string — takes the else
branch and prints the "already an SSH URL" note; a truthy URL without
the `git@` marker goes to `convertToSshUrl`; on success ask for
confirmation and, if accepted, run `git remote set-url`; outside a repo
only a tip is printed. -/
def remoteFlow (env : RemoteEnv) : RemoteResult :=
  if env.isRepo then
    match env.remoteUrl with
    | some url =>
      if !(url = "") && !(startsWithGitAt url) then
        match convertToSshUrl url with
        | some sshUrl =>
          if env.convertAnswer then
            if env.setUrlOk then
              { remoteUrl := some sshUrl, mutated := true,
                note := some .converted, err := none }
            else
              { remoteUrl := some url, mutated := false,
                note := none, err := some env.setUrlErr }
          else
            { remoteUrl := some url, mutated := false,
              note := none, err := none }
        | none =>
          { remoteUrl := some url, mutated := false,
            note := some .unrecognized, err := none }
      else
        { remoteUrl := some url, mutated := false,
          note := some .alreadySsh, err := none }
    | none =>
      { remoteUrl := none, mutated := false,
        note := some .alreadySsh, err := none }
  else
    { remoteUrl := env.remoteUrl, mutated := false,
      note := some .notARepo, err := none }

/-! ### `main` (src/index.js:290-419) -/

/-- Environment for `main`: every external fact and prompt answer the
orchestrator consults, in one record. -/
structure MainEnv where
  platform : Platform
  gitInstalled : Bool
  cfgEnv : CfgEnv
  cfg : GitConfig
  sshKeygenAvail : Bool
  winOpenSSHInstalled : Bool
  winInstallOk : Bool
  dirEnv : DirEnv
  genEnv : GenEnv
  ghEnv : GhEnv
  remoteEnv : RemoteEnv
  fs : FS

/-- Result of `main`: the process exit code, the message printed by the
outer catch (src/index.js:413-416) if it ran, the filesystem, the
command trace of the key-generation step, whether a GitHub upload was
attempted, and the remote block's result when it was reached. -/
structure MainResult where
  exitCode : Nat
  errMsg : Option String
  fs : FS
  genTrace : List String
  uploadAttempted : Bool
  remote : Option RemoteResult
  cfgRes : Option CfgResult

/-- The part of `main` after the tool checks (src/index.js:343-412):
directory, key generation, optional GitHub upload, remote rewrite.  A
wrapped error from `ensureSSHDirectory` or `generateKey`, or a rejected
`git remote set-url`, reaches the catch at line 413 and exits 1. -/
def mainCore (env : MainEnv) (c : CfgResult) : MainResult :=
  match (ensureSSHDirectory env.dirEnv).err with
  | some msg =>
    { exitCode := 1, errMsg := some msg, fs := env.fs, genTrace := [],
      uploadAttempted := false, remote := none, cfgRes := some c }
  | none =>
    let genRes := generateKey env.genEnv env.fs
    match genRes.err with
    | some msg =>
      { exitCode := 1, errMsg := some msg, fs := genRes.fs,
        genTrace := genRes.trace, uploadAttempted := false, remote := none,
        cfgRes := some c }
    | none =>
      let uploads := isGitHubCliAvailable env.ghEnv && env.ghEnv.uploadAnswer
      let rres := remoteFlow env.remoteEnv
      match rres.err with
      | some msg =>
        { exitCode := 1, errMsg := some msg, fs := genRes.fs,
          genTrace := genRes.trace, uploadAttempted := uploads,
          remote := some rres, cfgRes := some c }
      | none =>
        { exitCode := 0, errMsg := none, fs := genRes.fs,
          genTrace := genRes.trace, uploadAttempted := uploads,
          remote := some rres, cfgRes := some c }

/-- `main` (src/index.js:290-419).  The early `process.exit(1)` calls
(missing Git, lines 295-308; missing/unrepairable ssh-keygen, lines
314-341) terminate with exit code 1 and no catch-block message. -/
def main (env : MainEnv) : MainResult :=
  if !env.gitInstalled then
    { exitCode := 1, errMsg := none, fs := env.fs, genTrace := [],
      uploadAttempted := false, remote := none, cfgRes := none }
  else
    let c := setupGitConfig env.cfgEnv env.cfg
    if env.sshKeygenAvail then mainCore env c
    else if env.platform = Platform.windows then
      if !env.winOpenSSHInstalled then
        if env.winInstallOk then mainCore env c
        else { exitCode := 1, errMsg := none, fs := env.fs, genTrace := [],
               uploadAttempted := false, remote := none, cfgRes := some c }
      else { exitCode := 1, errMsg := none, fs := env.fs, genTrace := [],
             uploadAttempted := false, remote := none, cfgRes := some c }
    else { exitCode := 1, errMsg := none, fs := env.fs, genTrace := [],
           uploadAttempted := false, remote := none, cfgRes := some c }

/-! ### Concrete sample environments, used to instantiate theorems -/

/-- An empty filesystem. -/
def wFS0 : FS := ⟨fun _ => none⟩

/-- A filesystem holding only the private key. -/
def wFS1 : FS :=
  ⟨fun p => if p = keyPath "/home/u" then some "PRIV" else none⟩

/-- A filesystem holding both key files. -/
def wFS2 : FS :=
  ⟨fun p =>
    if p = keyPath "/home/u" then some "PRIV"
    else if p = pubKeyPath "/home/u" then some "PUB" else none⟩

def wDirEnv : DirEnv :=
  { platform := .linux, mkdirOk := true, mkdirErrCode := "",
    mkdirErrMsg := "", chmodOk := true, chmodErrCode := "",
    chmodErrMsg := "", icaclsOk := true }

def wGenEnv : GenEnv :=
  { platform := .linux, home := "/home/u", sshKeygenOk := true,
    sshKeygenPriv := "PRIV", sshKeygenPub := "PUB",
    sshKeygenErr := "exit status 1", readPubErr := "ENOENT", clipOk := true }

def wGhEnv : GhEnv :=
  { ghInstalled := false, ghAuthOk := false, ghUser := none,
    uploadAnswer := false, uploadOk := false }

def wRemoteEnv : RemoteEnv :=
  { isRepo := false, remoteUrl := none, convertAnswer := false,
    setUrlOk := true, setUrlErr := "" }

def wCfgEnv : CfgEnv :=
  { nameAnswer := "Alice", emailAnswer := "alice@example.com" }

def wMainEnv : MainEnv :=
  { platform := .linux, gitInstalled := true, cfgEnv := wCfgEnv,
    cfg := ⟨some "Bob", some "bob@example.com"⟩, sshKeygenAvail := true,
    winOpenSSHInstalled := false, winInstallOk := false,
    dirEnv := wDirEnv, genEnv := wGenEnv, ghEnv := wGhEnv,
    remoteEnv := wRemoteEnv, fs := wFS0 }

example : convertToSshUrl "https://github.com/alice/proj" =
    some "git@github.com:alice/proj.git" := by decide
example : convertToSshUrl "https://github.com/alice/proj.git" =
    some "git@github.com:alice/proj.git" := by decide
example : convertToSshUrl "git@github.com:a/b.git" = none := by decide
example : convertToSshUrl "ftp://x/a/b" = none := by decide
example : convertToSshUrl "https://github.com/alice" = none := by decide
example : convertToSshUrl "https://github.com/a/b/c" =
    some "git@github.com:a/b/c.git" := by decide

/-! ### Lemmas about the regex matcher -/

theorem match3_append_git (r : List Char) (h : ∀ c ∈ r, dotChar c) :
    match3 (r ++ ['.', 'g', 'i', 't']) = some r := by
  induction r with
  | nil => rfl
  | cons c cs ih =>
    have hne : c :: (cs ++ ['.', 'g', 'i', 't']) ≠ ['.', 'g', 'i', 't'] := by
      intro hEq
      have hlen := congrArg List.length hEq
      simp at hlen
    simp only [List.cons_append, List.append_eq, match3, if_neg hne,
      if_pos (h c (List.mem_cons_self c cs)),
      ih (fun x hx => h x (List.mem_cons_of_mem c hx)), Option.map_some']

theorem match3_of_not_suffix (r : List Char) (h : ∀ c ∈ r, dotChar c)
    (h2 : ¬ ['.', 'g', 'i', 't'] <:+ r) : match3 r = some r := by
  induction r with
  | nil => rfl
  | cons c cs ih =>
    have hne : c :: cs ≠ ['.', 'g', 'i', 't'] := by
      intro hEq
      exact h2 (hEq ▸ List.suffix_refl _)
    simp only [match3, if_neg hne, if_pos (h c (List.mem_cons_self c cs)),
      ih (fun x hx => h x (List.mem_cons_of_mem c hx))
        (fun hs => h2 (hs.trans (List.suffix_cons c cs))), Option.map_some']

theorem match2_commit (o T g3 : List Char)
    (ho : '/' ∉ o) (hdot : ∀ c ∈ o, dotChar c)
    (hT : match3 T = some g3) :
    match2 (o ++ '/' :: T) = some (o, g3) := by
  induction o with
  | nil => simp [match2, hT]
  | cons c cs ih =>
    have hc : c ≠ '/' := fun hEq => ho (hEq ▸ List.mem_cons_self c cs)
    have ih' := ih (fun hm => ho (List.mem_cons_of_mem c hm))
      (fun x hx => hdot x (List.mem_cons_of_mem c hx))
    simp only [List.cons_append, List.append_eq, match2, if_neg hc,
      if_pos (hdot c (List.mem_cons_self c cs)), ih', Option.map_some']

theorem match1_commit (d T g2 g3 : List Char)
    (hd : '/' ∉ d) (hdot : ∀ c ∈ d, dotChar c)
    (hT : match2 T = some (g2, g3)) :
    match1 (d ++ '/' :: T) = some (d, g2, g3) := by
  induction d with
  | nil => simp [match1, hT]
  | cons c cs ih =>
    have hc : c ≠ '/' := fun hEq => hd (hEq ▸ List.mem_cons_self c cs)
    have ih' := ih (fun hm => hd (List.mem_cons_of_mem c hm))
      (fun x hx => hdot x (List.mem_cons_of_mem c hx))
    simp only [List.cons_append, List.append_eq, match1, if_neg hc,
      if_pos (hdot c (List.mem_cons_self c cs)), ih', Option.map_some']

theorem match2_no_slash (cs : List Char) (h : '/' ∉ cs) : match2 cs = none := by
  induction cs with
  | nil => rfl
  | cons c cs ih =>
    have hc : c ≠ '/' := fun hEq => h (hEq ▸ List.mem_cons_self c cs)
    have ih' := ih (fun hm => h (List.mem_cons_of_mem c hm))
    by_cases hdc : dotChar c
    · simp [match2, hc, hdc, ih']
    · simp [match2, hc, hdc]

theorem match1_no_slash (cs : List Char) (h : '/' ∉ cs) : match1 cs = none := by
  induction cs with
  | nil => rfl
  | cons c cs ih =>
    have hc : c ≠ '/' := fun hEq => h (hEq ▸ List.mem_cons_self c cs)
    have ih' := ih (fun hm => h (List.mem_cons_of_mem c hm))
    by_cases hdc : dotChar c
    · simp [match1, hc, hdc, ih']
    · simp [match1, hc, hdc]

theorem match1_one_slash (d o : List Char) (hd : '/' ∉ d) (ho : '/' ∉ o) :
    match1 (d ++ '/' :: o) = none := by
  induction d with
  | nil =>
    have h2 : match2 o = none := match2_no_slash o ho
    have h1 : match1 o = none := match1_no_slash o ho
    simp [match1, h2, h1]
  | cons c cs ih =>
    have hc : c ≠ '/' := fun hEq => hd (hEq ▸ List.mem_cons_self c cs)
    have ih' := ih (fun hm => hd (List.mem_cons_of_mem c hm))
    by_cases hdc : dotChar c
    · simp [match1, hc, hdc, ih']
    · simp [match1, hc, hdc]

theorem matchUrl_append (rest : List Char) :
    matchUrl (httpsMarker ++ rest) = match1 rest := by
  have h8 : httpsMarker.length = 8 := rfl
  unfold matchUrl
  rw [← h8, List.take_left, List.drop_left, if_pos rfl]

theorem matchUrl_wellFormed (d o r : List Char)
    (hd : '/' ∉ d) (hdd : ∀ c ∈ d, dotChar c)
    (ho : '/' ∉ o) (hod : ∀ c ∈ o, dotChar c)
    (hrd : ∀ c ∈ r, dotChar c) (hgit : ¬ ['.', 'g', 'i', 't'] <:+ r) :
    matchUrl (httpsMarker ++ (d ++ '/' :: (o ++ '/' :: r))) = some (d, o, r) ∧
    matchUrl (httpsMarker ++ (d ++ '/' :: (o ++ '/' :: (r ++ ['.', 'g', 'i', 't']))))
      = some (d, o, r) := by
  constructor
  · rw [matchUrl_append]
    exact match1_commit d (o ++ '/' :: r) o r hd hdd
      (match2_commit o r r ho hod (match3_of_not_suffix r hrd hgit))
  · rw [matchUrl_append]
    exact match1_commit d (o ++ '/' :: (r ++ ['.', 'g', 'i', 't'])) o r hd hdd
      (match2_commit o (r ++ ['.', 'g', 'i', 't']) r ho hod
        (match3_append_git r hrd))

theorem toList_append (s t : String) : (s ++ t).toList = s.toList ++ t.toList :=
  String.data_append s t

/-- C1: for every well-formed HTTPS URL `https://domain/owner/repo` or
`https://domain/owner/repo.git` (segments free of `/` and of line
terminators, and `repo` not itself ending in `.git`, which is what makes
the two written forms unambiguous), `convertToSshUrl` returns exactly
`git@domain:owner/repo.git`. -/
theorem convertToSshUrl_roundTrip (domain owner repo : String)
    (hd : '/' ∉ domain.toList) (hdd : ∀ c ∈ domain.toList, dotChar c)
    (ho : '/' ∉ owner.toList) (hod : ∀ c ∈ owner.toList, dotChar c)
    (hrd : ∀ c ∈ repo.toList, dotChar c)
    (hgit : ¬ ['.', 'g', 'i', 't'] <:+ repo.toList) :
    convertToSshUrl ("https://" ++ domain ++ "/" ++ owner ++ "/" ++ repo)
      = some ("git@" ++ domain ++ ":" ++ owner ++ "/" ++ repo ++ ".git") ∧
    convertToSshUrl ("https://" ++ domain ++ "/" ++ owner ++ "/" ++ repo ++ ".git")
      = some ("git@" ++ domain ++ ":" ++ owner ++ "/" ++ repo ++ ".git") := by
  have hm := matchUrl_wellFormed domain.toList owner.toList repo.toList
    hd hdd ho hod hrd hgit
  have hl1 : ("https://" ++ domain ++ "/" ++ owner ++ "/" ++ repo).toList
      = httpsMarker ++ (domain.toList ++ '/' :: (owner.toList ++ '/' :: repo.toList)) := by
    simp only [toList_append]
    simp [httpsMarker, String.toList]
  have hl2 : ("https://" ++ domain ++ "/" ++ owner ++ "/" ++ repo ++ ".git").toList
      = httpsMarker ++ (domain.toList ++ '/' ::
          (owner.toList ++ '/' :: (repo.toList ++ ['.', 'g', 'i', 't']))) := by
    simp only [toList_append]
    simp [httpsMarker, String.toList]
  have hout : "git@" ++ domain.toList.asString ++ ":" ++ owner.toList.asString
      ++ "/" ++ repo.toList.asString ++ ".git"
      = "git@" ++ domain ++ ":" ++ owner ++ "/" ++ repo ++ ".git" := by
    rw [String.asString_toList, String.asString_toList, String.asString_toList]
  constructor
  · rw [convertToSshUrl, hl1, hm.1]
    exact congrArg some hout
  · rw [convertToSshUrl, hl2, hm.2]
    exact congrArg some hout

/-- C2 counterexample: `https://github.com/a/b/c` is not of the exact shape
`https://<domain>/<owner>/<repo>[.git]` (its path has three segments), yet
`convertToSshUrl` does not return null: the lazy third group absorbs the
extra segment, so the claim "every other input returns null" is false. -/
theorem convertToSshUrl_extra_segment_not_null :
    convertToSshUrl "https://github.com/a/b/c"
      = some "git@github.com:a/b/c.git" := by decide

/-- C2 amended: `convertToSshUrl` returns null for every input that does not
begin with the literal `https://` (already-SSH URLs, `ftp://`, …) and for
every `https://` URL whose remainder has no `/` (missing owner and repo) or
exactly one `/` (missing repo); but a path with extra segments is still
accepted, the repo group absorbing the extra `/`-separated parts. -/
theorem convertToSshUrl_null_cases :
    (∀ s : String, s.toList.take 8 ≠ httpsMarker → convertToSshUrl s = none) ∧
    (∀ d : String, '/' ∉ d.toList →
      convertToSshUrl ("https://" ++ d) = none) ∧
    (∀ d o : String, '/' ∉ d.toList → '/' ∉ o.toList →
      convertToSshUrl ("https://" ++ d ++ "/" ++ o) = none) := by
  refine ⟨fun s hs => ?_, fun d hd => ?_, fun d o hd ho => ?_⟩
  · rw [convertToSshUrl, matchUrl, if_neg hs]
  · have hl : ("https://" ++ d).toList = httpsMarker ++ d.toList := by
      rw [toList_append]; rfl
    rw [convertToSshUrl, hl, matchUrl_append, match1_no_slash d.toList hd]
  · have hl : ("https://" ++ d ++ "/" ++ o).toList
        = httpsMarker ++ (d.toList ++ '/' :: o.toList) := by
      simp only [toList_append]
      simp [httpsMarker, String.toList]
    rw [convertToSshUrl, hl, matchUrl_append, match1_one_slash d.toList o.toList hd ho]

theorem take4_append (l1 l2 l3 : List Char) (h : 4 ≤ l1.length) :
    ((l1 ++ l2) ++ l3).take 4 = l1.take 4 := by
  have h2 : 4 ≤ (l1 ++ l2).length := by
    rw [List.length_append]; omega
  rw [List.take_append_of_le_length h2, List.take_append_of_le_length h]

/-- The ssh-keygen command string never coincides with a clipboard
command: they differ within their first four characters. -/
theorem sshKeygenCmd_ne_clipCmd (p : Platform) (home home' : String) :
    sshKeygenCmd home ≠ clipCmd p home' := by
  intro hEq
  have h4 := congrArg (fun s => s.data.take 4) hEq
  cases p <;>
    simp only [sshKeygenCmd, clipCmd, String.data_append] at h4 <;>
    rw [take4_append _ _ _ (by decide), take4_append _ _ _ (by decide)] at h4 <;>
    exact absurd h4 (by decide)

theorem pubKeyPath_ne_keyPath (home : String) :
    pubKeyPath home ≠ keyPath home := by
  intro hEq
  have hlen := congrArg String.length hEq
  rw [pubKeyPath, String.length_append] at hlen
  have h4 : ".pub".length = 4 := by decide
  omega

/-- C3: for every state in which the private key file already exists,
`generateKey` never runs the `ssh-keygen` command and leaves the whole
filesystem — in particular the private key file's contents — unchanged. -/
theorem generateKey_existing_key_frame (env : GenEnv) (fs : FS)
    (h : (fs.files (keyPath env.home)).isSome) :
    sshKeygenCmd env.home ∉ (generateKey env fs).trace ∧
    (generateKey env fs).fs = fs ∧
    (generateKey env fs).fs.files (keyPath env.home)
      = fs.files (keyPath env.home) := by
  unfold generateKey
  rw [if_pos h]
  unfold readAndClip
  cases hpub : fs.files (pubKeyPath env.home) with
  | none => exact ⟨by simp, rfl, rfl⟩
  | some s =>
    refine ⟨?_, rfl, rfl⟩
    simp only [List.nil_append, List.mem_singleton]
    exact sshKeygenCmd_ne_clipCmd env.platform env.home env.home

/-- C4: for every state in which the private key file is absent, if
`generateKey` completes without throwing then both the private and the
public key file exist at the fixed paths. -/
theorem generateKey_absent_key_creates (env : GenEnv) (fs : FS)
    (habs : fs.files (keyPath env.home) = none)
    (hok : (generateKey env fs).err = none) :
    ((generateKey env fs).fs.files (keyPath env.home)).isSome ∧
    ((generateKey env fs).fs.files (pubKeyPath env.home)).isSome := by
  have hkw_key : (keygenWrite env fs).files (keyPath env.home)
      = some env.sshKeygenPriv := by
    unfold keygenWrite
    simp
  have hkw_pub : (keygenWrite env fs).files (pubKeyPath env.home)
      = some env.sshKeygenPub := by
    unfold keygenWrite
    simp [pubKeyPath_ne_keyPath env.home]
  unfold generateKey at hok ⊢
  rw [habs] at hok ⊢
  simp only [Option.isSome_none, Bool.false_eq_true, if_false] at hok ⊢
  by_cases hgen : env.sshKeygenOk
  · rw [if_pos hgen] at hok ⊢
    unfold readAndClip at hok ⊢
    rw [hkw_pub] at hok ⊢
    exact ⟨by simp [hkw_key], by simp [hkw_pub]⟩
  · rw [if_neg hgen] at hok
    exact absurd hok (by simp)

/-- C6 counterexample: on Linux, with the directory created successfully
but the permission-hardening `chmod` failing with `EPERM`, the failure is
not downgraded to a warning: `ensureSSHDirectory` propagates a fatal
wrapped error, because only the Windows `icacls` call has an inner
try/catch while the POSIX `chmod` falls through to the outer catch. -/
theorem ensureSSHDirectory_chmod_failure_fatal :
    (ensureSSHDirectory
      { platform := Platform.linux, mkdirOk := true, mkdirErrCode := "",
        mkdirErrMsg := "", chmodOk := false, chmodErrCode := "EPERM",
        chmodErrMsg := "operation not permitted", icaclsOk := true }).err
    = some "Failed to create .ssh directory: operation not permitted" := by
  decide

/-- C6 amended: permission-hardening failure is non-fatal only on the
Windows family, where a failed `icacls` yields a warning and no error;
on non-Windows platforms a failed `chmod` whose error code is not
`EEXIST` escapes to the outer catch and becomes the fatal wrapped
`Failed to create .ssh directory` error.  Directory creation itself
failing for a reason other than already-existing is fatal on every
platform. -/
theorem ensureSSHDirectory_failure_modes (env : DirEnv) :
    (env.platform = Platform.windows → env.mkdirOk = true →
      env.icaclsOk = false →
      (ensureSSHDirectory env).err = none ∧
      (ensureSSHDirectory env).warned = true) ∧
    (env.platform ≠ Platform.windows → env.mkdirOk = true →
      env.chmodOk = false → env.chmodErrCode ≠ "EEXIST" →
      (ensureSSHDirectory env).err
        = some ("Failed to create .ssh directory: " ++ env.chmodErrMsg)) ∧
    (env.mkdirOk = false → env.mkdirErrCode ≠ "EEXIST" →
      (ensureSSHDirectory env).err
        = some ("Failed to create .ssh directory: " ++ env.mkdirErrMsg)) := by
  refine ⟨fun hw hmk hic => ?_, fun hw hmk hch hcode => ?_, fun hmk hcode => ?_⟩
  · unfold ensureSSHDirectory
    rw [hmk, hw]
    simp [hic]
  · unfold ensureSSHDirectory
    rw [hmk]
    simp only [Bool.not_true, Bool.false_eq_true, if_false]
    rw [if_pos hw, if_neg (by rw [hch]; exact Bool.false_ne_true), if_pos hcode]
  · unfold ensureSSHDirectory
    rw [hmk]
    simp only [Bool.not_false, if_true]
    rw [if_pos hcode]

/-- C8: `isGitHubCliAvailable` is true exactly when the GitHub CLI
resolves on the search path and `gh auth status` succeeds; every probe
failure — including a failed auth check — is caught by the surrounding
try/catch and yields `false` (the function is total: it always returns a
boolean, never propagates an exception). -/
theorem isGitHubCliAvailable_iff (env : GhEnv) :
    isGitHubCliAvailable env = true ↔
      env.ghInstalled = true ∧ env.ghAuthOk = true := by
  unfold isGitHubCliAvailable whichGh ghAuthStatus
  by_cases h1 : env.ghInstalled <;> by_cases h2 : env.ghAuthOk <;>
    simp [h1, h2, Bind.bind, Except.bind, Pure.pure, Except.pure]

/-- C5: `setupGitConfig` never overwrites a present value: with a truthy
`user.name` and a falsy `user.email`, only the email prompt is shown,
every write performed targets `user.email`, and the stored name is left
unchanged; with both values truthy nothing is prompted and nothing is
written. -/
theorem setupGitConfig_no_overwrite (env : CfgEnv) (cfg : GitConfig) :
    (truthy cfg.name = true → truthy cfg.email = false →
      (setupGitConfig env cfg).prompts = ["email"] ∧
      (∀ w ∈ (setupGitConfig env cfg).writes, w.1 = "user.email") ∧
      (setupGitConfig env cfg).cfg.name = cfg.name) ∧
    (truthy cfg.name = true → truthy cfg.email = true →
      (setupGitConfig env cfg).prompts = [] ∧
      (setupGitConfig env cfg).writes = [] ∧
      (setupGitConfig env cfg).cfg = cfg) := by
  constructor
  · intro hn he
    unfold setupGitConfig
    rw [hn, he]
    by_cases ha : env.emailAnswer = "" <;> simp [truthy, ha]
  · intro hn he
    unfold setupGitConfig
    rw [hn, he]
    simp

/-- C9: in the remote-rewrite block, the origin remote is mutated only
when the user explicitly confirms; when the working directory is not a
work tree, when the URL already starts with `git@`, or when the URL is
truthy but the HTTPS-to-SSH parse fails, the remote is left unchanged
and only the corresponding informational note is printed; a JS-falsy
empty-string URL fails the `currentUrl &&` guard and takes the
"already an SSH URL" branch, likewise leaving the remote unchanged. -/
theorem remoteFlow_confirmation_guard (env : RemoteEnv) :
    ((remoteFlow env).mutated = true → env.convertAnswer = true) ∧
    (env.isRepo = false →
      (remoteFlow env).remoteUrl = env.remoteUrl ∧
      (remoteFlow env).mutated = false ∧
      (remoteFlow env).note = some RemoteNote.notARepo) ∧
    (∀ url, env.isRepo = true → env.remoteUrl = some url →
      startsWithGitAt url = true →
      (remoteFlow env).remoteUrl = some url ∧
      (remoteFlow env).mutated = false ∧
      (remoteFlow env).note = some RemoteNote.alreadySsh) ∧
    (∀ url, env.isRepo = true → env.remoteUrl = some url → url ≠ "" →
      startsWithGitAt url = false → convertToSshUrl url = none →
      (remoteFlow env).remoteUrl = some url ∧
      (remoteFlow env).mutated = false ∧
      (remoteFlow env).note = some RemoteNote.unrecognized) ∧
    (env.isRepo = true → env.remoteUrl = some "" →
      (remoteFlow env).remoteUrl = some "" ∧
      (remoteFlow env).mutated = false ∧
      (remoteFlow env).note = some RemoteNote.alreadySsh) := by
  refine ⟨?_, ?_, ?_, ?_, ?_⟩
  · intro hmut
    unfold remoteFlow at hmut
    by_cases hrepo : env.isRepo
    · rw [if_pos hrepo] at hmut
      cases hurl : env.remoteUrl with
      | none => rw [hurl] at hmut; exact absurd hmut (by simp)
      | some url =>
        rw [hurl] at hmut
        by_cases hcond : (!(url = "") && !(startsWithGitAt url)) = true
        · simp only [hcond, if_true] at hmut
          cases hconv : convertToSshUrl url with
          | none => rw [hconv] at hmut; exact absurd hmut (by simp)
          | some sshUrl =>
            by_cases hans : env.convertAnswer
            · exact hans
            · exfalso
              rw [hconv] at hmut
              revert hmut
              simp [hans]
        · have hcond' : (!(url = "") && !(startsWithGitAt url)) = false := by
            cases h : (!(url = "") && !(startsWithGitAt url)) with
            | true => exact absurd h hcond
            | false => rfl
          simp [hcond'] at hmut
    · rw [if_neg hrepo] at hmut; exact absurd hmut (by simp)
  · intro hrepo
    unfold remoteFlow
    rw [hrepo]
    exact ⟨rfl, rfl, rfl⟩
  · intro url hrepo hurl hssh
    unfold remoteFlow
    rw [hrepo, hurl]
    simp [hssh]
  · intro url hrepo hurl hne hssh hconv
    unfold remoteFlow
    rw [hrepo, hurl]
    simp [hne, hssh, hconv]
  · intro hrepo hurl
    unfold remoteFlow
    rw [hrepo, hurl]
    simp

/-- C7: when the external key-generation command exits non-zero (with
the earlier steps succeeding so that key generation is actually
reached and the key is absent), the whole flow aborts: the error is the
wrapped `Failed to generate SSH key: …` message — not the raw tool
output — and the process exits with code 1. -/
theorem main_keygen_failure_fatal (env : MainEnv)
    (hgit : env.gitInstalled = true)
    (hssh : env.sshKeygenAvail = true)
    (hdir : (ensureSSHDirectory env.dirEnv).err = none)
    (habs : env.fs.files (keyPath env.genEnv.home) = none)
    (hfail : env.genEnv.sshKeygenOk = false) :
    (main env).exitCode = 1 ∧
    (main env).errMsg
      = some ("Failed to generate SSH key: " ++ env.genEnv.sshKeygenErr) := by
  have hgen : (generateKey env.genEnv env.fs).err
      = some ("Failed to generate SSH key: " ++ env.genEnv.sshKeygenErr) ∧
      (generateKey env.genEnv env.fs).fs = env.fs ∧
      (generateKey env.genEnv env.fs).trace = [sshKeygenCmd env.genEnv.home] := by
    unfold generateKey
    rw [habs, hfail]
    simp
  unfold main
  rw [hgit, hssh]
  simp only [Bool.not_true, Bool.false_eq_true, if_false, if_true]
  unfold mainCore
  rw [hdir]
  rcases hg : generateKey env.genEnv env.fs with ⟨gfs, gtrace, gerr, gclip⟩
  rw [hg] at hgen
  simp only at hgen
  rw [hgen.1]
  exact ⟨rfl, rfl⟩

/-- C10: when the private key file exists but the public key file is
missing, `generateKey` throws the wrapped `Failed to generate SSH key`
error even though no generation was attempted (no `ssh-keygen` command
is run), and `main` exits fatally with code 1 instead of treating the
missing public key as non-fatal. -/
theorem main_missing_pub_fatal (env : MainEnv)
    (hgit : env.gitInstalled = true)
    (hssh : env.sshKeygenAvail = true)
    (hdir : (ensureSSHDirectory env.dirEnv).err = none)
    (hkey : (env.fs.files (keyPath env.genEnv.home)).isSome = true)
    (hpub : env.fs.files (pubKeyPath env.genEnv.home) = none) :
    (generateKey env.genEnv env.fs).err
      = some ("Failed to generate SSH key: " ++ env.genEnv.readPubErr) ∧
    sshKeygenCmd env.genEnv.home ∉ (generateKey env.genEnv env.fs).trace ∧
    (main env).exitCode = 1 ∧
    (main env).errMsg
      = some ("Failed to generate SSH key: " ++ env.genEnv.readPubErr) := by
  have hgen : (generateKey env.genEnv env.fs).err
      = some ("Failed to generate SSH key: " ++ env.genEnv.readPubErr) ∧
      (generateKey env.genEnv env.fs).trace = [] := by
    unfold generateKey readAndClip
    rw [if_pos hkey, hpub]
    exact ⟨rfl, rfl⟩
  have hmain : (main env).exitCode = 1 ∧
      (main env).errMsg
        = some ("Failed to generate SSH key: " ++ env.genEnv.readPubErr) := by
    unfold main
    rw [hgit, hssh]
    simp only [Bool.not_true, Bool.false_eq_true, if_false, if_true]
    unfold mainCore
    rw [hdir]
    rcases hg : generateKey env.genEnv env.fs with ⟨gfs, gtrace, gerr, gclip⟩
    rw [hg] at hgen
    simp only at hgen
    rw [hgen.1]
    exact ⟨rfl, rfl⟩
  exact ⟨hgen.1, by rw [hgen.2]; simp, hmain.1, hmain.2⟩

/-! ### Witness instantiations -/

/-- C1 witness: the round trip at `github.com`/`alice`/`proj`. -/
theorem convertToSshUrl_roundTrip_witness :
    convertToSshUrl "https://github.com/alice/proj"
      = some "git@github.com:alice/proj.git" ∧
    convertToSshUrl "https://github.com/alice/proj.git"
      = some "git@github.com:alice/proj.git" :=
  convertToSshUrl_roundTrip "github.com" "alice" "proj"
    (by decide) (by decide) (by decide) (by decide) (by decide) (by decide)

/-- C2 witness: the null cases at the spec's own examples. -/
theorem convertToSshUrl_null_cases_witness :
    convertToSshUrl "git@github.com:a/b.git" = none ∧
    convertToSshUrl "ftp://x/a/b" = none ∧
    convertToSshUrl "https://github.com" = none ∧
    convertToSshUrl "https://github.com/alice" = none :=
  ⟨convertToSshUrl_null_cases.1 "git@github.com:a/b.git" (by decide),
   convertToSshUrl_null_cases.1 "ftp://x/a/b" (by decide),
   convertToSshUrl_null_cases.2.1 "github.com" (by decide),
   convertToSshUrl_null_cases.2.2 "github.com" "alice" (by decide) (by decide)⟩

/-- C3 witness: an existing key pair is left untouched. -/
theorem generateKey_existing_key_frame_witness :
    sshKeygenCmd "/home/u" ∉ (generateKey wGenEnv wFS2).trace ∧
    (generateKey wGenEnv wFS2).fs = wFS2 ∧
    (generateKey wGenEnv wFS2).fs.files (keyPath "/home/u")
      = wFS2.files (keyPath "/home/u") :=
  generateKey_existing_key_frame wGenEnv wFS2 (by decide)

/-- C4 witness: generation from an empty filesystem creates both files. -/
theorem generateKey_absent_key_creates_witness :
    ((generateKey wGenEnv wFS0).fs.files (keyPath "/home/u")).isSome ∧
    ((generateKey wGenEnv wFS0).fs.files (pubKeyPath "/home/u")).isSome :=
  generateKey_absent_key_creates wGenEnv wFS0 rfl (by decide)

/-- C5 witness: name present/email absent, and both present. -/
theorem setupGitConfig_no_overwrite_witness :
    ((setupGitConfig wCfgEnv ⟨some "Bob", none⟩).prompts = ["email"] ∧
      (∀ w ∈ (setupGitConfig wCfgEnv ⟨some "Bob", none⟩).writes,
        w.1 = "user.email") ∧
      (setupGitConfig wCfgEnv ⟨some "Bob", none⟩).cfg.name = some "Bob") ∧
    ((setupGitConfig wCfgEnv ⟨some "Bob", some "b@c.d"⟩).prompts = [] ∧
      (setupGitConfig wCfgEnv ⟨some "Bob", some "b@c.d"⟩).writes = [] ∧
      (setupGitConfig wCfgEnv ⟨some "Bob", some "b@c.d"⟩).cfg
        = ⟨some "Bob", some "b@c.d"⟩) :=
  ⟨(setupGitConfig_no_overwrite wCfgEnv ⟨some "Bob", none⟩).1
      (by decide) (by decide),
   (setupGitConfig_no_overwrite wCfgEnv ⟨some "Bob", some "b@c.d"⟩).2
      (by decide) (by decide)⟩

/-- C6 witness: Windows icacls failure warns without error; POSIX chmod
failure and mkdir failure both produce the fatal wrapped error. -/
theorem ensureSSHDirectory_failure_modes_witness :
    ((ensureSSHDirectory
        { wDirEnv with platform := .windows, icaclsOk := false }).err = none ∧
     (ensureSSHDirectory
        { wDirEnv with platform := .windows, icaclsOk := false }).warned
        = true) ∧
    (ensureSSHDirectory { wDirEnv with
        chmodOk := false, chmodErrCode := "EPERM", chmodErrMsg := "boom" }).err
      = some "Failed to create .ssh directory: boom" ∧
    (ensureSSHDirectory { wDirEnv with
        mkdirOk := false, mkdirErrCode := "EACCES", mkdirErrMsg := "denied" }).err
      = some "Failed to create .ssh directory: denied" :=
  ⟨(ensureSSHDirectory_failure_modes _).1 rfl rfl rfl,
   (ensureSSHDirectory_failure_modes { wDirEnv with
      chmodOk := false, chmodErrCode := "EPERM", chmodErrMsg := "boom" }).2.1
      (by decide) rfl rfl (by decide),
   (ensureSSHDirectory_failure_modes { wDirEnv with
      mkdirOk := false, mkdirErrCode := "EACCES", mkdirErrMsg := "denied" }).2.2
      rfl (by decide)⟩

/-- C7 witness: a failing `ssh-keygen` on an otherwise healthy Linux
system aborts with the wrapped message and exit code 1. -/
theorem main_keygen_failure_fatal_witness :
    (main { wMainEnv with
        genEnv := { wGenEnv with sshKeygenOk := false } }).exitCode = 1 ∧
    (main { wMainEnv with
        genEnv := { wGenEnv with sshKeygenOk := false } }).errMsg
      = some "Failed to generate SSH key: exit status 1" :=
  main_keygen_failure_fatal
    { wMainEnv with genEnv := { wGenEnv with sshKeygenOk := false } }
    rfl rfl (by decide) rfl rfl

/-- C9 witness: confirmation gating, no-repo, already-SSH,
unrecognized-URL and falsy-empty-URL branches at concrete inputs. -/
theorem remoteFlow_confirmation_guard_witness :
    ({ wRemoteEnv with
        isRepo := true, remoteUrl := some "https://github.com/a/b",
        convertAnswer := true } : RemoteEnv).convertAnswer = true ∧
    ((remoteFlow wRemoteEnv).remoteUrl = wRemoteEnv.remoteUrl ∧
      (remoteFlow wRemoteEnv).mutated = false ∧
      (remoteFlow wRemoteEnv).note = some RemoteNote.notARepo) ∧
    ((remoteFlow { wRemoteEnv with
        isRepo := true, remoteUrl := some "git@github.com:a/b.git" }).remoteUrl
        = some "git@github.com:a/b.git" ∧
      (remoteFlow { wRemoteEnv with
        isRepo := true, remoteUrl := some "git@github.com:a/b.git" }).mutated
        = false ∧
      (remoteFlow { wRemoteEnv with
        isRepo := true, remoteUrl := some "git@github.com:a/b.git" }).note
        = some RemoteNote.alreadySsh) ∧
    ((remoteFlow { wRemoteEnv with
        isRepo := true, remoteUrl := some "svn://x" }).remoteUrl
        = some "svn://x" ∧
      (remoteFlow { wRemoteEnv with
        isRepo := true, remoteUrl := some "svn://x" }).mutated = false ∧
      (remoteFlow { wRemoteEnv with
        isRepo := true, remoteUrl := some "svn://x" }).note
        = some RemoteNote.unrecognized) ∧
    ((remoteFlow { wRemoteEnv with
        isRepo := true, remoteUrl := some "" }).remoteUrl = some "" ∧
      (remoteFlow { wRemoteEnv with
        isRepo := true, remoteUrl := some "" }).mutated = false ∧
      (remoteFlow { wRemoteEnv with
        isRepo := true, remoteUrl := some "" }).note
        = some RemoteNote.alreadySsh) :=
  ⟨(remoteFlow_confirmation_guard { wRemoteEnv with
      isRepo := true, remoteUrl := some "https://github.com/a/b",
      convertAnswer := true }).1 (by decide),
   (remoteFlow_confirmation_guard wRemoteEnv).2.1 rfl,
   (remoteFlow_confirmation_guard { wRemoteEnv with
      isRepo := true, remoteUrl := some "git@github.com:a/b.git" }).2.2.1
      "git@github.com:a/b.git" rfl rfl (by decide),
   (remoteFlow_confirmation_guard { wRemoteEnv with
      isRepo := true, remoteUrl := some "svn://x" }).2.2.2.1
      "svn://x" rfl rfl (by decide) (by decide) (by decide),
   (remoteFlow_confirmation_guard { wRemoteEnv with
      isRepo := true, remoteUrl := some "" }).2.2.2.2 rfl rfl⟩

/-- C10 witness: a filesystem with the private key but no `.pub` file
yields the wrapped error, no generation, and a fatal exit. -/
theorem main_missing_pub_fatal_witness :
    (generateKey wGenEnv wFS1).err
      = some "Failed to generate SSH key: ENOENT" ∧
    sshKeygenCmd "/home/u" ∉ (generateKey wGenEnv wFS1).trace ∧
    (main { wMainEnv with fs := wFS1 }).exitCode = 1 ∧
    (main { wMainEnv with fs := wFS1 }).errMsg
      = some "Failed to generate SSH key: ENOENT" :=
  main_missing_pub_fatal { wMainEnv with fs := wFS1 }
    rfl rfl (by decide) (by decide) (by decide)

end GenSshKey
